import Mathlib

/-!
Verification of the `hello-nordvpn` CLI controller.

A shallow embedding of the program's core components, translated from the
Python sources:
  * `nordvpn/api/models.py` and `nordvpn/api/client.py` (catalog client,
    server selector),
  * `nordvpn/vpn/tunnelblick.py` (GUI scripting bridge),
  * `nordvpn/vpn/config_manager.py` (config bundle builder, over an explicit
    file-system state),
  * `nordvpn/vpn/status.py` (status reconciler),
  * `nordvpn/cli.py` (the connect orchestration in `do_connect`).

I/O results (HTTP responses, AppleScript replies, probe outcomes) are passed
in as explicit parameters, and side effects are recorded in explicit effect
lists, so every function here is pure and executable.
-/

set_option maxHeartbeats 1000000

namespace Nord

/-! ### Character and string helpers

Structural reimplementations of the Python string operations used by the
sources (`str.split`, `str.strip`, `str.lower`, `str.upper`, substring
containment via `in`, `str.endswith`, `pathlib.Path.stem`).  They recurse on
`List Char`, so they evaluate inside the kernel. -/

/-- Does the first list occur as a leading segment of the second? -/
def startsWithChars : List Char → List Char → Bool
  | [], _ => true
  | _ :: _, [] => false
  | p :: ps, c :: cs => p = c && startsWithChars ps cs

/-- Substring containment on character lists (Python `pat in s`). -/
def containsChars (pat : List Char) : List Char → Bool
  | [] => pat.isEmpty
  | c :: cs => startsWithChars pat (c :: cs) || containsChars pat cs

/-- Python `s.split(sep)` for a one-character separator. -/
def splitChars (sep : Char) : List Char → List (List Char)
  | [] => [[]]
  | c :: cs =>
    if c = sep then [] :: splitChars sep cs
    else
      match splitChars sep cs with
      | [] => [[c]]
      | h :: t => (c :: h) :: t

/-- Join character lists with a dot separator (used by `stemOf`). -/
def joinDots : List (List Char) → List Char
  | [] => []
  | [x] => x
  | x :: xs => x ++ '.' :: joinDots xs

/-- Python `s.strip()`. -/
def pyStrip (s : String) : String :=
  ⟨((s.data.dropWhile Char.isWhitespace).reverse.dropWhile Char.isWhitespace).reverse⟩

/-- Python `s.lower()`. -/
def strLower (s : String) : String := ⟨s.data.map Char.toLower⟩

/-- Python `s.upper()`. -/
def strUpper (s : String) : String := ⟨s.data.map Char.toUpper⟩

/-- Python `s.endswith(suffix)`. -/
def strEndsWith (s suffix : String) : Bool :=
  startsWithChars suffix.data.reverse s.data.reverse

/-- Python `s.split(",")` returning strings. -/
def pySplitComma (s : String) : List String :=
  (splitChars ',' s.data).map (fun cs => ⟨cs⟩)

/-- `pathlib.Path.stem`: the file name without its last `.suffix`. -/
def stemOf (name : String) : String :=
  match splitChars '.' name.data with
  | [] => name
  | [_] => name
  | parts => ⟨joinDots parts.dropLast⟩

/-! ### Catalog data model (`nordvpn/api/models.py`) -/

/-- `models.Technology`. -/
structure Technology where
  id : Nat
  name : String
  identifier : String

/-- `models.City`. -/
structure City where
  id : Nat
  name : String
  latitude : Float
  longitude : Float
  dns_name : Option String := none
  hub_score : Option Nat := none

/-- `models.Country` (a city record is nested inside it in API responses). -/
structure Country where
  id : Nat
  name : String
  code : String
  city : Option City := none

/-- `models.ServerLocation`. -/
structure ServerLocation where
  id : Nat
  country : Country
  latitude : Float
  longitude : Float

/-- `models.ServerIP`. -/
structure ServerIP where
  id : Nat
  ip : String
  version : Nat

/-- `models.Server`. -/
structure Server where
  id : Nat
  name : String
  station : String
  hostname : String
  load : Nat
  status : String
  locations : List ServerLocation := []
  technologies : List Technology := []
  ips : List ServerIP := []

/-- `models.Server.country` (the first location's country). -/
def Server.country (s : Server) : Option Country :=
  match s.locations with
  | [] => none
  | l :: _ => some l.country

/-- `models.Server.city` (the first location's country's nested city). -/
def Server.city (s : Server) : Option City :=
  match s.locations with
  | [] => none
  | l :: _ => l.country.city

/-- `models.RecommendedServer` (recommendations endpoint record). -/
structure RecommendedServer where
  id : Nat
  name : String
  station : String
  hostname : String
  load : Nat
  status : String
  locations : List ServerLocation := []
  technologies : List Technology := []

/-- `models.RecommendedServer.country`. -/
def RecommendedServer.country (s : RecommendedServer) : Option Country :=
  match s.locations with
  | [] => none
  | l :: _ => some l.country

/-- `models.RecommendedServer.city`. -/
def RecommendedServer.city (s : RecommendedServer) : Option City :=
  match s.locations with
  | [] => none
  | l :: _ => l.country.city

/-! ### Catalog client and server selector (`nordvpn/api/client.py`)

The HTTP layer is abstracted: a catalog response is passed in as the list of
countries (`/v1/servers/countries`) together with a function giving, for a
country id, the list returned by `/v1/servers/recommendations` for that id
(already best-first ordered by the provider). -/

/-- `NordVPNClient.get_country_by_code`: case-insensitive first match on the
two-letter code over the countries list. -/
def get_country_by_code (countries : List Country) (code : String) : Option Country :=
  let codeU := strUpper code
  countries.find? (fun c => strUpper c.code == codeU)

/-- The city filter predicate of `find_optimal_server`:
`s.city and city_lower in s.city.name.lower()`. -/
def cityMatches (cityLower : String) (s : RecommendedServer) : Bool :=
  match s.city with
  | none => false
  | some ct => containsChars cityLower.data (strLower ct.name).data

/-- The candidate-narrowing block of `find_optimal_server`: filter the
recommendations by city when a (non-empty) city string is given, falling back
to the full list when the filter leaves nothing. -/
def candidatesOf (recommendations : List RecommendedServer) (city : Option String) :
    List RecommendedServer :=
  match city with
  | none => recommendations
  | some c =>
    if c.data.isEmpty then recommendations
    else
      let narrowed := recommendations.filter (cityMatches (strLower c))
      if narrowed.isEmpty then recommendations else narrowed

/-- The scan loop of `find_optimal_server`: first server whose load is at
most the threshold, in list order. -/
def firstUnderLoad (maxLoad : Nat) : List RecommendedServer → Option RecommendedServer
  | [] => none
  | s :: rest => if s.load ≤ maxLoad then some s else firstUnderLoad maxLoad rest

/-- Python `min(candidates, key=lambda s: s.load)`: the first element with
minimal load (a strictly smaller load replaces the current best). -/
def minByLoad : List RecommendedServer → Option RecommendedServer
  | [] => none
  | h :: t => some (t.foldl (fun best s => if s.load < best.load then s else best) h)

/-- The `Server(...)` conversion applied to the chosen recommendation in
`find_optimal_server` (`ips=[]`). -/
def toServer (s : RecommendedServer) : Server :=
  { id := s.id, name := s.name, station := s.station, hostname := s.hostname,
    load := s.load, status := s.status, locations := s.locations,
    technologies := s.technologies, ips := [] }

/-- `NordVPNClient.find_optimal_server` over a catalog response. -/
def find_optimal_server (countries : List Country)
    (recsOf : Nat → List RecommendedServer)
    (country_code : String) (city : Option String) (max_load : Nat) : Option Server :=
  match get_country_by_code countries country_code with
  | none => none
  | some country =>
    let recommendations := recsOf country.id
    let candidates := candidatesOf recommendations city
    match firstUnderLoad max_load candidates with
    | some server => some (toServer server)
    | none =>
      match minByLoad candidates with
      | none => none
      | some best => some (toServer best)

/-- Hostname normalization used across the sources: append `.nordvpn.com`
when the suffix is missing. -/
def normalize_hostname (h : String) : String :=
  if strEndsWith h ".nordvpn.com" then h else h ++ ".nordvpn.com"

/-- `ConfigManager._hostname_to_config_name`. -/
def hostname_to_config_name (h : String) : String :=
  normalize_hostname h ++ ".udp"

/-! ### GUI scripting bridge (`nordvpn/vpn/tunnelblick.py`)

AppleScript invocations are abstracted as `Except String String` inputs: the
stripped stdout of the script on success, or the raised `TunnelblickError`
message on failure. -/

/-- `tunnelblick.ConnectionState`. -/
inductive ConnectionState where
  | CONNECTED
  | EXITING
  | DISCONNECTED
  | CONNECTING
  | SLEEPING
  | UNKNOWN
deriving DecidableEq

/-- `tunnelblick.TunnelblickStatus`. -/
structure TunnelblickStatus where
  state : ConnectionState
  config_name : Option String := none
  server_ip : Option String := none
deriving DecidableEq

/-- `[x.strip() for x in reply.split(",")]`, the comma-separated list parse
used by both `list_configs` and `get_status`. -/
def parseReplyList (r : String) : List String :=
  (pySplitComma r).map pyStrip

/-- `TunnelblickController.list_configs` over the AppleScript reply: empty
reply means no configurations, otherwise split on commas and strip. -/
def list_configs (reply : Except String String) : Except String (List String) :=
  match reply with
  | .error e => .error e
  | .ok r =>
    if r = "" then .ok []
    else .ok (parseReplyList r)

/-- The scan loop of `TunnelblickController.get_status`: walk the states in
order; on the first `CONNECTED` entry within range of the config-name list
report it, likewise (in the same iteration) for `CONNECTING`; report
`DISCONNECTED` when the walk finds neither. -/
def scanStates (configs : List String) : Nat → List String → TunnelblickStatus
  | _, [] => ⟨ConnectionState.DISCONNECTED, none, none⟩
  | i, st :: rest =>
    if st = "CONNECTED" then
      if i < configs.length then
        ⟨ConnectionState.CONNECTED, some (configs.getD i ""), none⟩
      else scanStates configs (i + 1) rest
    else if st = "CONNECTING" then
      if i < configs.length then
        ⟨ConnectionState.CONNECTING, some (configs.getD i ""), none⟩
      else scanStates configs (i + 1) rest
    else scanStates configs (i + 1) rest

/-- `TunnelblickController.get_status`.  The first argument is the outcome of
the `get state of configurations` script (its failure is caught and mapped to
`UNKNOWN`); the second is the outcome of the `get name of configurations`
script issued by the nested `list_configs` call (its failure propagates). -/
def get_status (stateReply configsReply : Except String String) :
    Except String TunnelblickStatus :=
  match stateReply with
  | .error _ => .ok ⟨ConnectionState.UNKNOWN, none, none⟩
  | .ok r =>
    if r = "" then .ok ⟨ConnectionState.DISCONNECTED, none, none⟩
    else
      let states := parseReplyList r
      match list_configs configsReply with
      | .error e => .error e
      | .ok configs => .ok (scanStates configs 0 states)

/-- The polling loop of `TunnelblickController.connect` with `wait=True`:
one `get_status` poll per second while the elapsed time is below the timeout.
`poll k` is the state observed by the poll made `k` seconds in; the result
records the decision together with the trace of states actually observed. -/
def connectPollLoop (poll : Nat → ConnectionState) :
    Nat → Nat → Bool × List ConnectionState
  | _, 0 => (false, [])
  | k, fuel + 1 =>
    let s := poll k
    if s = ConnectionState.CONNECTED then (true, [s])
    else if s = ConnectionState.DISCONNECTED then (false, [s])
    else
      let r := connectPollLoop poll (k + 1) fuel
      (r.1, s :: r.2)

/-- `TunnelblickController.connect`.  The first argument is the outcome of
the `connect "<name>"` script (an error propagates); with `wait=False` the
call returns `True` immediately with no polls; with `wait=True` it runs the
polling loop. -/
def connect (script : Except String Unit) (poll : Nat → ConnectionState)
    (wait : Bool) (timeout : Nat) : Except String (Bool × List ConnectionState) :=
  match script with
  | .error e => .error e
  | .ok _ =>
    if wait then .ok (connectPollLoop poll 0 timeout)
    else .ok (true, [])

/-! ### File-system model and config bundle builder (`nordvpn/vpn/config_manager.py`)

The file system is an association list from paths (component lists) to
entries.  `create_tblk_package` is a straight-line sequence of file-system
operations; `failAt = some k` injects an `OSError` at the k-th operation
(0 = `shutil.rmtree`, 1 = `mkdir`, 2 = `shutil.copy2`, 3 = the `.pass`
write, 4 = `os.chmod`, 5 = the `autoLogin` touch), returning the state the
program left on disk at that point. -/

/-- A file-system entry: a directory, or a file with content and mode. -/
inductive FsEntry where
  | dir
  | file (content : String) (mode : Nat)
deriving DecidableEq

/-- A path, as a list of components. -/
abbrev FsPath := List String

/-- A file-system state. -/
abbrev FS := List (FsPath × FsEntry)

/-- Look up the entry at a path. -/
def fsLookup : FS → FsPath → Option FsEntry
  | [], _ => none
  | e :: rest, p => if e.1 = p then some e.2 else fsLookup rest p

/-- Drop every binding of a path. -/
def fsErase : FS → FsPath → FS
  | [], _ => []
  | e :: rest, p => if e.1 = p then fsErase rest p else e :: fsErase rest p

/-- Create or overwrite the entry at a path. -/
def fsSet (fs : FS) (p : FsPath) (entry : FsEntry) : FS :=
  (p, entry) :: fsErase fs p

/-- `shutil.rmtree`: drop the path and everything below it. -/
def fsRemoveTree : FS → FsPath → FS
  | [], _ => []
  | e :: rest, p =>
    if p.isPrefixOf e.1 then fsRemoveTree rest p else e :: fsRemoveTree rest p

/-- `os.chmod` on a file. -/
def fsChmod (fs : FS) (p : FsPath) (m : Nat) : FS :=
  match fsLookup fs p with
  | some (FsEntry.file c _) => fsSet fs p (FsEntry.file c m)
  | _ => fs

/-- `Path.exists`. -/
def fsExists (fs : FS) (p : FsPath) : Bool :=
  (fsLookup fs p).isSome

/-- The file name (last component) of a path. -/
def pathName (p : FsPath) : String := p.getLastD ""

/-- `ConfigManager.create_tblk_package` as a file-system transformer with an
injectable failure point.  On failure the error value is the file-system
state at the failure. -/
def create_tblk_package (fs0 : FS) (configDir : FsPath) (ovpnPath : FsPath)
    (username password : String) (failAt : Option Nat) :
    Except FS (FS × FsPath) :=
  let tblkName := stemOf (pathName ovpnPath)
  let tblkPath := configDir ++ [tblkName ++ ".tblk"]
  if failAt = some 0 then .error fs0 else
  let fs1 := if fsExists fs0 tblkPath then fsRemoveTree fs0 tblkPath else fs0
  if failAt = some 1 then .error fs1 else
  let fs2 := fsSet fs1 tblkPath FsEntry.dir
  if failAt = some 2 then .error fs2 else
  match fsLookup fs2 ovpnPath with
  | none => .error fs2
  | some srcEntry =>
    let fs3 := fsSet fs2 (tblkPath ++ [pathName ovpnPath]) srcEntry
    if failAt = some 3 then .error fs3 else
    let fs4 := fsSet fs3 (tblkPath ++ [stemOf (pathName ovpnPath) ++ ".pass"])
      (FsEntry.file (username ++ "\n" ++ password ++ "\n") 0o644)
    if failAt = some 4 then .error fs4 else
    let fs5 := fsChmod fs4 (tblkPath ++ [stemOf (pathName ovpnPath) ++ ".pass"]) 0o600
    if failAt = some 5 then .error fs5 else
    let fs6 := fsSet fs5 (tblkPath ++ ["autoLogin"]) (FsEntry.file "" 0o644)
    .ok (fs6, tblkPath)

/-- The file-system state a (possibly failed) builder run left behind. -/
def resultFS : Except FS (FS × FsPath) → FS
  | .error fs => fs
  | .ok (fs, _) => fs

/-- The externally visible steps of `ConfigManager.setup_server`. -/
inductive SetupStep where
  | download (hostname : String)
  | install (bundle : FsPath)
deriving DecidableEq

/-- `ConfigManager.setup_server`: download the profile into the staging
directory, build the `.tblk` package, then hand the bundle off to the GUI
(`install_config` via `open`, which does not modify the staging tree), and
return the Tunnelblick config name. -/
def setup_server (fs0 : FS) (configDir : FsPath)
    (hostname username password profileContent : String) (failAt : Option Nat) :
    Except FS (String × FS × List SetupStep) :=
  let h := normalize_hostname hostname
  let ovpnPath := configDir ++ [h ++ ".udp.ovpn"]
  let fsA := fsSet fs0 ovpnPath (FsEntry.file profileContent 0o644)
  match create_tblk_package fsA configDir ovpnPath username password failAt with
  | .error fs => .error fs
  | .ok (fs', tblkPath) =>
    .ok (hostname_to_config_name hostname, fs',
      [SetupStep.download h, SetupStep.install tblkPath])

/-! ### Status reconciler (`nordvpn/vpn/status.py`)

Probe outcomes are parameters: `ipResult` is what `get_public_ip` returned
(`none` on any failure), `geoResult` what `get_ip_info` would return if
called, and `catalogResult` what `client.get_server_by_hostname` would do if
called (`Except.error` for a raised exception, which `get_connection_status`
swallows).  The probes actually issued are recorded in the returned list. -/

/-- `status.ConnectionStatus`. -/
structure ConnectionStatus where
  connected : Bool
  config_name : Option String := none
  server_hostname : Option String := none
  public_ip : Option String := none
  country : Option String := none
  city : Option String := none
  load : Option Nat := none
deriving DecidableEq

/-- The `city`/`country` fields of an `ipinfo.io` reply. -/
structure GeoInfo where
  city : Option String := none
  country : Option String := none

/-- The network probes `get_connection_status` can issue. -/
inductive Probe where
  | ipProbe
  | geoProbe
  | catalogProbe
deriving DecidableEq

/-- Case-insensitive literal match consuming input characters; returns the
matched input characters (original case) and the rest. -/
def takeCI : List Char → List Char → Option (List Char × List Char)
  | [], input => some ([], input)
  | _ :: _, [] => none
  | p :: ps, c :: cs =>
    if p.toLower = c.toLower then
      match takeCI ps cs with
      | none => none
      | some (m, r) => some (c :: m, r)
    else none

/-- `[a-z]` under `re.IGNORECASE`. -/
def isLetterAZ (c : Char) : Bool :=
  'a' ≤ c.toLower && c.toLower ≤ 'z'

/-- `status._extract_hostname_from_config`: the regex
`^([a-z]{2}\d+\.nordvpn\.com)` with `re.IGNORECASE`, returning the matched
group. -/
def extract_hostname_from_config (config_name : String) : Option String :=
  match config_name.data with
  | a :: b :: rest =>
    if isLetterAZ a && isLetterAZ b then
      match rest.span Char.isDigit with
      | (ds, rest2) =>
        if ds.isEmpty then none
        else
          match takeCI ".nordvpn.com".data rest2 with
          | some (m, _) => some ⟨a :: b :: (ds ++ m)⟩
          | none => none
    else none
  | _ => none

/-- Python falsiness of an optional string (`not x`): absent or empty. -/
def optFalsy : Option String → Bool
  | none => true
  | some s => s.data.isEmpty

/-- `status.get_connection_status`. -/
def get_connection_status (tb : TunnelblickStatus) (ipResult : Option String)
    (geoResult : Option GeoInfo) (catalogResult : Except String (Option Server)) :
    ConnectionStatus × List Probe :=
  if tb.state = ConnectionState.CONNECTED then
    let config_name := tb.config_name
    let hostname :=
      match config_name with
      | none => none
      | some cn => extract_hostname_from_config cn
    let public_ip := ipResult
    let geo : Option String × Option String × List Probe :=
      match public_ip with
      | none => (none, none, [Probe.ipProbe])
      | some _ =>
        match geoResult with
        | none => (none, none, [Probe.ipProbe, Probe.geoProbe])
        | some g => (g.city, g.country, [Probe.ipProbe, Probe.geoProbe])
    let city0 := geo.1
    let country0 := geo.2.1
    let probes0 := geo.2.2
    match hostname with
    | none =>
      (⟨true, config_name, hostname, public_ip, country0, city0, none⟩, probes0)
    | some _ =>
      match catalogResult with
      | .error _ =>
        (⟨true, config_name, hostname, public_ip, country0, city0, none⟩,
         probes0 ++ [Probe.catalogProbe])
      | .ok none =>
        (⟨true, config_name, hostname, public_ip, country0, city0, none⟩,
         probes0 ++ [Probe.catalogProbe])
      | .ok (some server) =>
        let city1 := if optFalsy city0 && server.city.isSome
          then server.city.map City.name else city0
        let country1 := if optFalsy country0 && server.country.isSome
          then server.country.map Country.name else country0
        (⟨true, config_name, hostname, public_ip, country1, city1, some server.load⟩,
         probes0 ++ [Probe.catalogProbe])
  else (⟨false, none, none, none, none, none, none⟩, [])

/-! ### CLI connect orchestration (`nordvpn/cli.py`, `do_connect`)

The environment packages the outcomes of the external calls `do_connect`
makes; the returned effect list records which of them it actually issued, in
order.  `CliEffect.setup` stands for the whole `config_manager.setup_server`
call (profile download + bundle write + install). -/

/-- The externally visible actions of `do_connect`. -/
inductive CliEffect where
  | findOptimal
  | listConfigs
  | setup (hostname : String)
  | sleepRegister
  | guiConnect (configName : String)
  | statusProbe
deriving DecidableEq

/-- Is this effect the `setup_server` call? -/
def isSetupEffect : CliEffect → Bool
  | CliEffect.setup _ => true
  | _ => false

/-- Outcomes of the external calls available to `do_connect`. -/
structure CliEnv where
  optimal : Option Server
  installed : List String
  connectOutcome : Except String Bool

/-- The tail of `do_connect` from the `TunnelblickController.connect` call:
a raised `TunnelblickError` yields failure; on success a status probe is made
for display. -/
def doConnectFinish (configName : String) (acc : List CliEffect) (env : CliEnv) :
    Bool × List CliEffect :=
  let acc := acc ++ [CliEffect.guiConnect configName]
  match env.connectOutcome with
  | .error _ => (false, acc)
  | .ok b => if b then (true, acc ++ [CliEffect.statusProbe]) else (false, acc)

/-- The middle of `do_connect`, once a hostname is fixed: compute the config
name, list the installed configs, and run `setup_server` (followed by the
3-second registration sleep) only when the name is not yet installed. -/
def doConnectWithHost (hostname : String) (acc : List CliEffect) (env : CliEnv) :
    Bool × List CliEffect :=
  let configName := hostname ++ ".udp"
  let acc := acc ++ [CliEffect.listConfigs]
  if configName ∈ env.installed then
    doConnectFinish configName acc env
  else
    doConnectFinish (hostname_to_config_name hostname)
      (acc ++ [CliEffect.setup hostname, CliEffect.sleepRegister]) env

/-- `cli.do_connect`: with `--server` the hostname is normalized directly;
otherwise the selector is consulted and its failure terminates the run. -/
def do_connect (server : Option String) (env : CliEnv) : Bool × List CliEffect :=
  match server with
  | some s => doConnectWithHost (normalize_hostname s) [] env
  | none =>
    match env.optimal with
    | none => (false, [CliEffect.findOptimal])
    | some srv => doConnectWithHost srv.hostname [CliEffect.findOptimal] env

/-! ## Theorems -/

/-- The polling loop decides `true` exactly when some in-window poll observes
`CONNECTED` with no earlier poll observing `DISCONNECTED`. -/
lemma connectPollLoop_true_iff (poll : Nat → ConnectionState) :
    ∀ fuel k,
      (connectPollLoop poll k fuel).1 = true ↔
        ∃ i, i < fuel ∧ poll (k + i) = ConnectionState.CONNECTED ∧
          ∀ j, j < i → poll (k + j) ≠ ConnectionState.DISCONNECTED := by
  intro fuel
  induction fuel with
  | zero =>
    intro k
    simp [connectPollLoop]
  | succ n ih =>
    intro k
    by_cases hC : poll k = ConnectionState.CONNECTED
    · simp only [connectPollLoop, hC, if_pos rfl]
      constructor
      · intro _
        exact ⟨0, Nat.succ_pos n, by simpa using hC,
          fun j hj => absurd hj (Nat.not_lt_zero j)⟩
      · intro _
        rfl
    · by_cases hD : poll k = ConnectionState.DISCONNECTED
      · have hred : connectPollLoop poll k (n + 1) =
            (false, [ConnectionState.DISCONNECTED]) := by
          simp [connectPollLoop, hD]
        rw [hred]
        simp only [Bool.false_eq_true, false_iff, not_exists]
        rintro i ⟨_, hconn, hnd⟩
        cases i with
        | zero => exact hC (by simpa using hconn)
        | succ m => exact hnd 0 (Nat.succ_pos m) (by simpa using hD)
      · simp only [connectPollLoop]
        rw [if_neg (by simpa using hC), if_neg (by simpa using hD)]
        rw [ih (k + 1)]
        constructor
        · rintro ⟨i, hi, hconn, hnd⟩
          refine ⟨i + 1, Nat.succ_lt_succ hi, ?_, ?_⟩
          · have e : k + 1 + i = k + (i + 1) := by omega
            rwa [e] at hconn
          · intro j hj
            cases j with
            | zero => simpa using hD
            | succ m =>
              have e : k + (m + 1) = k + 1 + m := by omega
              rw [e]
              exact hnd m (by omega)
        · rintro ⟨i, hi, hconn, hnd⟩
          cases i with
          | zero => exact absurd (by simpa using hconn) hC
          | succ m =>
            refine ⟨m, by omega, ?_, ?_⟩
            · have e : k + 1 + m = k + (m + 1) := by omega
              rwa [e]
            · intro j hj
              have e : k + 1 + j = k + (j + 1) := by omega
              rw [e]
              exact hnd (j + 1) (by omega)

/-- Claim C4: with `wait=true` and the connect script issued without error,
`TunnelblickController.connect` returns success exactly when some poll within
the timeout window observes `CONNECTED` and no earlier poll observed
`DISCONNECTED`; consequently it fails as soon as a poll observes
`DISCONNECTED`, it fails when the timeout window elapses without a
`CONNECTED` observation, and it never succeeds without having observed
`CONNECTED` (time is abstracted so that poll `k` is the one made `k` seconds
in and the window holds `timeout` polls). -/
theorem connect_wait_spec (poll : Nat → ConnectionState) (timeout : Nat) :
    (connect (.ok ()) poll true timeout).map Prod.fst = .ok true ↔
      ∃ k, k < timeout ∧ poll k = ConnectionState.CONNECTED ∧
        ∀ j, j < k → poll j ≠ ConnectionState.DISCONNECTED := by
  have h := connectPollLoop_true_iff poll timeout 0
  simpa [connect, Except.map] using h

/-- Poll trace for the C4 witness: `CONNECTING` twice, then `CONNECTED`. -/
def pollS1 : Nat → ConnectionState :=
  fun n => if n = 2 then ConnectionState.CONNECTED else ConnectionState.CONNECTING

/-- Witness for C4: a connection observed `CONNECTED` on the third poll
within a 30-second window yields success. -/
theorem connect_wait_spec_witness :
    (connect (.ok ()) pollS1 true 30).map Prod.fst = .ok true :=
  (connect_wait_spec pollS1 30).mpr ⟨2, by decide, by decide, by decide⟩

/-- Claim C10: with `wait=false`, `TunnelblickController.connect` returns
`True` immediately after the connect script is issued without error, with an
empty poll trace — its result does not depend on the polled states at all. -/
theorem connect_nowait_spec (poll : Nat → ConnectionState) (timeout : Nat) :
    connect (.ok ()) poll false timeout = .ok (true, []) := rfl

/-- Claim C6: when the GUI snapshot is not `CONNECTED`, the reconciler
returns `connected=false` with every optional field absent and issues no
probe at all. -/
theorem get_connection_status_disconnected (tb : TunnelblickStatus)
    (ip : Option String) (geo : Option GeoInfo)
    (cat : Except String (Option Server))
    (h : tb.state ≠ ConnectionState.CONNECTED) :
    get_connection_status tb ip geo cat =
      (⟨false, none, none, none, none, none, none⟩, []) := by
  simp [get_connection_status, h]

/-- Witness for C6 at a concrete `CONNECTING` snapshot with all probes able
to succeed: none is consulted. -/
theorem get_connection_status_disconnected_witness :
    get_connection_status ⟨ConnectionState.CONNECTING, some "x", none⟩
      (some "1.2.3.4") (some ⟨some "London", some "GB"⟩) (.ok none) =
      (⟨false, none, none, none, none, none, none⟩, []) :=
  get_connection_status_disconnected _ _ _ _ (by decide)

/-- A successful first-under-threshold scan splits the list at the first
server meeting the threshold. -/
lemma firstUnderLoad_eq_some (maxLoad : Nat) :
    ∀ l s, firstUnderLoad maxLoad l = some s →
      ∃ l1 l2, l = l1 ++ s :: l2 ∧ s.load ≤ maxLoad ∧ ∀ x ∈ l1, maxLoad < x.load := by
  intro l
  induction l with
  | nil => intro s hs; simp [firstUnderLoad] at hs
  | cons h t ih =>
    intro s hs
    by_cases hl : h.load ≤ maxLoad
    · simp [firstUnderLoad, hl] at hs
      exact ⟨[], t, by simp [hs], by rw [← hs]; exact hl, by simp⟩
    · simp only [firstUnderLoad, if_neg hl] at hs
      obtain ⟨l1, l2, he, hle, hgt⟩ := ih s hs
      refine ⟨h :: l1, l2, by rw [he]; rfl, hle, ?_⟩
      intro x hx
      rcases List.mem_cons.mp hx with rfl | hx
      · omega
      · exact hgt x hx

/-- The fold implementing Python `min(..., key=load)` yields an element of
the list (or the seed) whose load is minimal. -/
lemma foldl_minByLoad_spec :
    ∀ (t : List RecommendedServer) (acc : RecommendedServer),
      let r := t.foldl (fun best s => if s.load < best.load then s else best) acc
      (r = acc ∨ r ∈ t) ∧ r.load ≤ acc.load ∧ ∀ x ∈ t, r.load ≤ x.load := by
  intro t
  induction t with
  | nil => intro acc; exact ⟨Or.inl rfl, Nat.le_refl _, by simp⟩
  | cons s t ih =>
    intro acc
    simp only [List.foldl_cons]
    obtain ⟨hmem, hacc, hall⟩ := ih (if s.load < acc.load then s else acc)
    refine ⟨?_, ?_, ?_⟩
    · rcases hmem with he | hm
      · rw [he]
        by_cases hs : s.load < acc.load
        · simp [hs]
        · simp [hs]
      · exact Or.inr (List.mem_cons_of_mem s hm)
    · refine Nat.le_trans hacc ?_
      by_cases hs : s.load < acc.load
      · simp [hs]; omega
      · simp [hs]
    · intro x hx
      rcases List.mem_cons.mp hx with hxe | hx
      · rw [hxe]
        refine Nat.le_trans hacc ?_
        by_cases hs : s.load < acc.load
        · simp [hs]
        · simp [hs]; omega
      · exact hall x hx

/-- On a nonempty list, `minByLoad` returns a member of minimal load (the
first such, as Python `min` does). -/
lemma minByLoad_spec (l : List RecommendedServer) (hne : l ≠ []) :
    ∃ b, minByLoad l = some b ∧ b ∈ l ∧ ∀ x ∈ l, b.load ≤ x.load := by
  cases l with
  | nil => exact absurd rfl hne
  | cons h t =>
    obtain ⟨hmem, hacc, hall⟩ := foldl_minByLoad_spec t h
    refine ⟨_, rfl, ?_, ?_⟩
    · rcases hmem with he | hm
      · rw [he]; exact List.mem_cons_self h t
      · exact List.mem_cons_of_mem h hm
    · intro x hx
      rcases List.mem_cons.mp hx with rfl | hx
      · exact hacc
      · exact hall x hx

/-- Claim C1: `find_optimal_server` returns `none` when the country code
matches nothing; given a matched country, it scans the candidate list (the
recommendations, possibly narrowed by city) in order and returns the first
server with load at most `max_load`, converted via `toServer`; when no
candidate meets the threshold it returns a candidate of minimal load; and it
returns `none` exactly on an empty candidate list. -/
theorem find_optimal_server_spec (countries : List Country)
    (recsOf : Nat → List RecommendedServer) (code : String)
    (city : Option String) (maxLoad : Nat) :
    (get_country_by_code countries code = none →
      find_optimal_server countries recsOf code city maxLoad = none) ∧
    ∀ c, get_country_by_code countries code = some c →
      (candidatesOf (recsOf c.id) city = [] →
        find_optimal_server countries recsOf code city maxLoad = none) ∧
      (∀ s, firstUnderLoad maxLoad (candidatesOf (recsOf c.id) city) = some s →
        find_optimal_server countries recsOf code city maxLoad = some (toServer s) ∧
        ∃ l1 l2, candidatesOf (recsOf c.id) city = l1 ++ s :: l2 ∧
          s.load ≤ maxLoad ∧ ∀ x ∈ l1, maxLoad < x.load) ∧
      (firstUnderLoad maxLoad (candidatesOf (recsOf c.id) city) = none →
        candidatesOf (recsOf c.id) city ≠ [] →
        ∃ b, find_optimal_server countries recsOf code city maxLoad = some (toServer b) ∧
          b ∈ candidatesOf (recsOf c.id) city ∧
          ∀ x ∈ candidatesOf (recsOf c.id) city, b.load ≤ x.load) := by
  constructor
  · intro h
    simp [find_optimal_server, h]
  · intro c hc
    refine ⟨?_, ?_, ?_⟩
    · intro hcand
      simp [find_optimal_server, hc, hcand, firstUnderLoad, minByLoad]
    · intro s hs
      refine ⟨by simp [find_optimal_server, hc, hs], ?_⟩
      exact firstUnderLoad_eq_some maxLoad _ s hs
    · intro hnone hne
      obtain ⟨b, hb, hmem, hall⟩ := minByLoad_spec _ hne
      exact ⟨b, by simp [find_optimal_server, hc, hnone, hb], hmem, hall⟩

/-- Country record used by the C1 witness. -/
def usCountry : Country := ⟨228, "United States", "US", none⟩

/-- Low-load recommendation used by the C1 witness. -/
def usRec1 : RecommendedServer :=
  ⟨1, "United States #5090", "us5090.nordvpn.com", "us5090.nordvpn.com", 12, "online", [], []⟩

/-- High-load recommendation used by the C1 witness. -/
def usRec2 : RecommendedServer :=
  ⟨2, "United States #5091", "us5091.nordvpn.com", "us5091.nordvpn.com", 44, "online", [], []⟩

/-- Recommendations-by-country-id map used by the C1 witness. -/
def usRecsOf : Nat → List RecommendedServer :=
  fun i => if i = 228 then [usRec1, usRec2] else []

/-- Witness for C1: on the S1 catalog (`us5090` at load 12, `us5091` at
load 44), the selector picks `us5090`. -/
theorem find_optimal_server_spec_witness :
    find_optimal_server [usCountry] usRecsOf "us" none 30 = some (toServer usRec1) :=
  (((find_optimal_server_spec [usCountry] usRecsOf "us" none 30).2
    usCountry rfl).2.1 usRec1 rfl).1

/-- Claim C9: when no recommended server's city name contains the requested
city string (case-insensitively), the selector's result with the city filter
equals its result without it. -/
theorem find_optimal_server_city_fallback (countries : List Country)
    (recsOf : Nat → List RecommendedServer) (code c : String) (maxLoad : Nat)
    (h : ∀ cc, get_country_by_code countries code = some cc →
      ∀ s ∈ recsOf cc.id, cityMatches (strLower c) s = false) :
    find_optimal_server countries recsOf code (some c) maxLoad =
      find_optimal_server countries recsOf code none maxLoad := by
  cases hcc : get_country_by_code countries code with
  | none => simp [find_optimal_server, hcc]
  | some cc =>
    have hall := h cc hcc
    have hcand : candidatesOf (recsOf cc.id) (some c) = candidatesOf (recsOf cc.id) none := by
      unfold candidatesOf
      by_cases hce : c.data.isEmpty
      · simp [hce]
      · simp only [if_neg hce]
        have hfil : (recsOf cc.id).filter (cityMatches (strLower c)) = [] := by
          rw [List.filter_eq_nil_iff]
          intro a ha
          simp [hall a ha]
        simp [hfil]
    simp only [find_optimal_server, hcc, hcand]

/-- Country record used by the C9 witness. -/
def deCountry : Country := ⟨81, "Germany", "DE", none⟩

/-- Berlin recommendation used by the C9 witness. -/
def deRec : RecommendedServer :=
  ⟨3, "Germany #123", "de123.nordvpn.com", "de123.nordvpn.com", 7, "online",
    [⟨1, ⟨81, "Germany", "DE", some ⟨42, "Berlin", 52.5, 13.4, none, none⟩⟩, 52.5, 13.4⟩], []⟩

/-- Recommendations-by-country-id map used by the C9 witness. -/
def deRecsOf : Nat → List RecommendedServer :=
  fun i => if i = 81 then [deRec] else []

/-- Witness for C9 at the S3 scenario: city `atlantis` matches nothing in
Germany, so the city-filtered result equals the unfiltered one. -/
theorem find_optimal_server_city_fallback_witness :
    find_optimal_server [deCountry] deRecsOf "de" (some "atlantis") 30 =
      find_optimal_server [deCountry] deRecsOf "de" none 30 :=
  find_optimal_server_city_fallback [deCountry] deRecsOf "de" "atlantis" 30 (by
    intro cc hcc s hs
    have h2 : some deCountry = some cc := hcc
    have e : cc = deCountry := (Option.some.inj h2).symm
    subst e
    have hs' : s ∈ [deRec] := hs
    rw [List.mem_singleton] at hs'
    subst hs'
    rfl)

/-- A state string on which the `get_status` scan stops (within range of the
config-name list). -/
def decisiveState (s : String) : Bool :=
  s = "CONNECTED" || s = "CONNECTING"

/-- The `get_status` scan stops at the first in-range decisive state and
reports that configuration with that state. -/
lemma scanStates_found (configs : List String) :
    ∀ (sts : List String) (i j : Nat), j < sts.length →
      decisiveState (sts.getD j "") = true →
      i + j < configs.length →
      (∀ k, k < j → decisiveState (sts.getD k "") = true → ¬ i + k < configs.length) →
      scanStates configs i sts =
        ⟨if sts.getD j "" = "CONNECTED" then ConnectionState.CONNECTED
           else ConnectionState.CONNECTING,
         some (configs.getD (i + j) ""), none⟩ := by
  intro sts
  induction sts with
  | nil =>
    intro i j hj
    simp at hj
  | cons st rest ih =>
    intro i j hj hd hr hmin
    cases j with
    | zero =>
      simp only [List.getD_cons_zero] at hd ⊢
      by_cases hc : st = "CONNECTED"
      · simp only [scanStates, if_pos hc]
        rw [if_pos (by omega : i < configs.length)]
        simp [hc]
      · have hcg : st = "CONNECTING" := by
          simp [decisiveState, hc] at hd
          exact hd
        simp only [scanStates, if_neg hc, if_pos hcg]
        rw [if_pos (by omega : i < configs.length)]
        simp [hc]
    | succ m =>
      have hlift : ∀ k, k < m → decisiveState (rest.getD k "") = true →
          ¬ i + 1 + k < configs.length := by
        intro k hk hdk
        have := hmin (k + 1) (by omega) (by simpa using hdk)
        omega
      have hrec : scanStates configs (i + 1) rest =
          ⟨if rest.getD m "" = "CONNECTED" then ConnectionState.CONNECTED
             else ConnectionState.CONNECTING,
           some (configs.getD (i + 1 + m) ""), none⟩ :=
        ih (i + 1) m (by simpa using hj) (by simpa using hd)
          (by omega) hlift
      have hres : scanStates configs i (st :: rest) = scanStates configs (i + 1) rest := by
        by_cases hc : st = "CONNECTED"
        · have hnr : ¬ i + 0 < configs.length :=
            hmin 0 (Nat.succ_pos m) (by simp [decisiveState, hc])
          simp only [scanStates, if_pos hc]
          rw [if_neg (by omega)]
        · by_cases hcg : st = "CONNECTING"
          · have hnr : ¬ i + 0 < configs.length :=
              hmin 0 (Nat.succ_pos m) (by simp [decisiveState, hcg])
            simp only [scanStates, if_neg hc, if_pos hcg]
            rw [if_neg (by omega)]
          · simp only [scanStates, if_neg hc, if_neg hcg]
      rw [hres, hrec]
      have e : i + 1 + m = i + (m + 1) := by omega
      simp [e]

/-- When no in-range decisive state exists, the scan reports
`DISCONNECTED`. -/
lemma scanStates_none (configs : List String) :
    ∀ (sts : List String) (i : Nat),
      (∀ j, j < sts.length → decisiveState (sts.getD j "") = true →
        ¬ i + j < configs.length) →
      scanStates configs i sts = ⟨ConnectionState.DISCONNECTED, none, none⟩ := by
  intro sts
  induction sts with
  | nil => intro i _; rfl
  | cons st rest ih =>
    intro i h
    have hlift : ∀ j, j < rest.length → decisiveState (rest.getD j "") = true →
        ¬ i + 1 + j < configs.length := by
      intro j hj hdj
      have := h (j + 1) (by simpa using Nat.succ_lt_succ hj) (by simpa using hdj)
      omega
    have hrest := ih (i + 1) hlift
    by_cases hc : st = "CONNECTED"
    · have hnr : ¬ i + 0 < configs.length :=
        h 0 (by simp) (by simp [decisiveState, hc])
      simp only [scanStates, if_pos hc]
      rw [if_neg (by omega)]
      exact hrest
    · by_cases hcg : st = "CONNECTING"
      · have hnr : ¬ i + 0 < configs.length :=
          h 0 (by simp) (by simp [decisiveState, hcg])
        simp only [scanStates, if_neg hc, if_pos hcg]
        rw [if_neg (by omega)]
        exact hrest
      · simp only [scanStates, if_neg hc, if_neg hcg]
        exact hrest

/-- Claim C2 counterexample: with per-config states `CONNECTING,CONNECTED`
and config names `a,b`, the second configuration is `CONNECTED`, yet
`get_status` reports the `CONNECTING` configuration `a` — it does not prefer
a `CONNECTED` configuration over an earlier `CONNECTING` one. -/
theorem get_status_priority_counterexample :
    get_status (.ok "CONNECTING,CONNECTED") (.ok "a,b") =
      .ok ⟨ConnectionState.CONNECTING, some "a", none⟩ ∧
    parseReplyList "CONNECTING,CONNECTED" = ["CONNECTING", "CONNECTED"] ∧
    parseReplyList "a,b" = ["a", "b"] := by
  refine ⟨rfl, rfl, rfl⟩

/-- Claim C2 (amended): `get_status` walks the parallel state and config-name
arrays in order and reports the first configuration (within range of the name
list) whose state is `CONNECTED` or `CONNECTING` — with that state, whichever
it is; it reports `DISCONNECTED` when no such configuration occurs (or the
state reply is empty), and `UNKNOWN` when the state query fails. -/
theorem get_status_scan_spec (e r cr : String) :
    get_status (.error e) (.ok cr) = .ok ⟨ConnectionState.UNKNOWN, none, none⟩ ∧
    get_status (.ok "") (.ok cr) = .ok ⟨ConnectionState.DISCONNECTED, none, none⟩ ∧
    (r ≠ "" →
      (∀ j, j < (parseReplyList r).length →
        decisiveState ((parseReplyList r).getD j "") = true →
        j < (if cr = "" then [] else parseReplyList cr).length →
        (∀ k, k < j → decisiveState ((parseReplyList r).getD k "") = true →
          ¬ k < (if cr = "" then [] else parseReplyList cr).length) →
        get_status (.ok r) (.ok cr) =
          .ok ⟨if (parseReplyList r).getD j "" = "CONNECTED" then ConnectionState.CONNECTED
                 else ConnectionState.CONNECTING,
               some ((if cr = "" then [] else parseReplyList cr).getD j ""), none⟩) ∧
      ((∀ j, j < (parseReplyList r).length →
        decisiveState ((parseReplyList r).getD j "") = true →
        ¬ j < (if cr = "" then [] else parseReplyList cr).length) →
        get_status (.ok r) (.ok cr) = .ok ⟨ConnectionState.DISCONNECTED, none, none⟩)) := by
  refine ⟨rfl, rfl, fun hr => ⟨?_, ?_⟩⟩
  · intro j hj hd hrange hmin
    have hconf : list_configs (Except.ok cr) =
        .ok (if cr = "" then [] else parseReplyList cr) := by
      by_cases hcr : cr = ""
      · simp [list_configs, hcr]
      · simp [list_configs, hcr]
    have hscan := scanStates_found (if cr = "" then [] else parseReplyList cr)
      (parseReplyList r) 0 j hj hd (by simpa using hrange)
      (by intro k hk hdk; simpa using hmin k hk hdk)
    simp only [get_status, if_neg hr, hconf]
    rw [hscan]
    simp
  · intro hnone
    have hconf : list_configs (Except.ok cr) =
        .ok (if cr = "" then [] else parseReplyList cr) := by
      by_cases hcr : cr = ""
      · simp [list_configs, hcr]
      · simp [list_configs, hcr]
    have hscan := scanStates_none (if cr = "" then [] else parseReplyList cr)
      (parseReplyList r) 0
      (by intro j hj hdj; simpa using hnone j hj hdj)
    simp only [get_status, if_neg hr, hconf]
    rw [hscan]

/-- Witness for C2 (amended): with states `DISCONNECTED,CONNECTED` and
configs `a,b`, the first in-range decisive entry is the `CONNECTED` one at
index 1, and `get_status` reports configuration `b` as `CONNECTED`. -/
theorem get_status_scan_spec_witness :
    get_status (.ok "DISCONNECTED,CONNECTED") (.ok "a,b") =
      .ok ⟨ConnectionState.CONNECTED, some "b", none⟩ := by
  have h := ((get_status_scan_spec "err" "DISCONNECTED,CONNECTED" "a,b").2.2
    (by decide)).1 1 (by decide) (by decide) (by decide)
    (by decide)
  simpa using h

/-- Looking up after erasing a path. -/
lemma fsLookup_fsErase (fs : FS) (p q : FsPath) :
    fsLookup (fsErase fs p) q = if q = p then none else fsLookup fs q := by
  induction fs with
  | nil => by_cases hq : q = p <;> simp [fsErase, fsLookup, hq]
  | cons e rest ih =>
    by_cases he : e.1 = p
    · by_cases hq : q = p
      · simp only [fsErase, if_pos he, ih, if_pos hq]
      · have hne : ¬ e.1 = q := by rw [he]; exact fun h => hq h.symm
        simp only [fsErase, if_pos he, ih, if_neg hq, fsLookup, if_neg hne]
    · by_cases hq : e.1 = q
      · have hqp : ¬ q = p := fun h => he (by rw [hq, h])
        simp only [fsErase, if_neg he, fsLookup, if_pos hq, if_neg hqp]
      · simp only [fsErase, if_neg he, fsLookup, if_neg hq, ih]

/-- Looking up after setting a path. -/
lemma fsLookup_fsSet (fs : FS) (p q : FsPath) (entry : FsEntry) :
    fsLookup (fsSet fs p entry) q = if q = p then some entry else fsLookup fs q := by
  by_cases hq : q = p
  · simp only [fsSet, fsLookup, if_pos hq.symm, if_pos hq]
  · have hpq : ¬ p = q := fun h => hq h.symm
    simp only [fsSet, fsLookup, if_neg hpq, fsLookup_fsErase, if_neg hq]

/-- Looking up after removing a subtree. -/
lemma fsLookup_fsRemoveTree (fs : FS) (p q : FsPath) :
    fsLookup (fsRemoveTree fs p) q =
      if p.isPrefixOf q = true then none else fsLookup fs q := by
  induction fs with
  | nil => by_cases hq : p.isPrefixOf q = true <;> simp [fsRemoveTree, fsLookup, hq]
  | cons e rest ih =>
    by_cases he : p.isPrefixOf e.1 = true
    · by_cases hq : p.isPrefixOf q = true
      · simp only [fsRemoveTree, if_pos he, ih, if_pos hq]
      · have hne : ¬ e.1 = q := by
          intro h
          rw [h] at he
          exact hq he
        simp only [fsRemoveTree, if_pos he, ih, if_neg hq, fsLookup, if_neg hne]
    · by_cases heq : e.1 = q
      · have hq : ¬ p.isPrefixOf q = true := by
          intro h
          rw [← heq] at h
          exact he h
        simp only [fsRemoveTree, if_neg he, fsLookup, if_pos heq, if_neg hq]
      · simp only [fsRemoveTree, if_neg he, fsLookup, if_neg heq, ih]

/-- `fsChmod` leaves every other path unchanged. -/
lemma fsLookup_fsChmod_ne (fs : FS) (p : FsPath) (m : Nat) (q : FsPath)
    (h : q ≠ p) : fsLookup (fsChmod fs p m) q = fsLookup fs q := by
  unfold fsChmod
  cases hl : fsLookup fs p with
  | none => rfl
  | some entry =>
    cases entry with
    | dir => rfl
    | file c mode0 => rw [fsLookup_fsSet, if_neg h]

/-- `fsChmod` updates the mode of an existing file. -/
lemma fsLookup_fsChmod_file (fs : FS) (p : FsPath) (m : Nat) (c : String)
    (mode0 : Nat) (h : fsLookup fs p = some (FsEntry.file c mode0)) :
    fsLookup (fsChmod fs p m) p = some (FsEntry.file c m) := by
  unfold fsChmod
  rw [h, fsLookup_fsSet, if_pos rfl]

/-- Staging directory with a pre-existing bundle (and its profile inside)
plus a freshly downloaded profile, used for the C3 counterexample. -/
def priorBundleFS : FS :=
  [(["configs", "h.udp.tblk"], FsEntry.dir),
   (["configs", "h.udp.tblk", "old.ovpn"], FsEntry.file "OLD" 0o644),
   (["configs", "h.udp.ovpn"], FsEntry.file "NEW" 0o644)]

/-- Claim C3 counterexample: a bundle `h.udp.tblk` exists before the build;
`create_tblk_package` fails at the `copy2` step (failure point 2), and the
prior bundle's file is gone from the resulting file system — the build is
not atomic and the prior bundle did not remain intact. -/
theorem create_tblk_package_counterexample :
    fsLookup priorBundleFS ["configs", "h.udp.tblk", "old.ovpn"] =
      some (FsEntry.file "OLD" 0o644) ∧
    fsLookup (resultFS (create_tblk_package priorBundleFS ["configs"]
      ["configs", "h.udp.ovpn"] "u" "p" (some 2)))
      ["configs", "h.udp.tblk", "old.ovpn"] = none :=
  ⟨rfl, rfl⟩

/-- Claim C3 (amended): `create_tblk_package` is not atomic — it first
removes an existing bundle of the same name and then assembles the new
bundle in place.  Whenever the run proceeds past the removal (any failure
point other than the `rmtree` itself, including success), no file of the
prior bundle survives: every path strictly inside the bundle directory other
than the three freshly written members is absent afterwards. -/
theorem create_tblk_package_removes_prior (fs0 : FS) (configDir ovpnPath : FsPath)
    (u p : String) (failAt : Option Nat) (q : FsPath)
    (hex : fsExists fs0 (configDir ++ [stemOf (pathName ovpnPath) ++ ".tblk"]) = true)
    (h0 : failAt ≠ some 0)
    (hpre : (configDir ++ [stemOf (pathName ovpnPath) ++ ".tblk"]).isPrefixOf q = true)
    (hq1 : q ≠ configDir ++ [stemOf (pathName ovpnPath) ++ ".tblk"])
    (hq2 : q ≠ configDir ++ [stemOf (pathName ovpnPath) ++ ".tblk"] ++ [pathName ovpnPath])
    (hq3 : q ≠ configDir ++ [stemOf (pathName ovpnPath) ++ ".tblk"] ++
      [stemOf (pathName ovpnPath) ++ ".pass"])
    (hq4 : q ≠ configDir ++ [stemOf (pathName ovpnPath) ++ ".tblk"] ++ ["autoLogin"]) :
    fsLookup (resultFS (create_tblk_package fs0 configDir ovpnPath u p failAt)) q = none := by
  have h1 : fsLookup (if fsExists fs0 (configDir ++ [stemOf (pathName ovpnPath) ++ ".tblk"])
      then fsRemoveTree fs0 (configDir ++ [stemOf (pathName ovpnPath) ++ ".tblk"])
      else fs0) q = none := by
    rw [if_pos hex, fsLookup_fsRemoveTree, if_pos hpre]
  unfold create_tblk_package
  simp only [if_neg h0]
  by_cases hf1 : failAt = some 1
  · simp only [if_pos hf1, resultFS]
    exact h1
  · simp only [if_neg hf1]
    by_cases hf2 : failAt = some 2
    · simp only [if_pos hf2, resultFS, fsLookup_fsSet, if_neg hq1]
      exact h1
    · simp only [if_neg hf2]
      cases hsrc : fsLookup (fsSet (if fsExists fs0
          (configDir ++ [stemOf (pathName ovpnPath) ++ ".tblk"])
          then fsRemoveTree fs0 (configDir ++ [stemOf (pathName ovpnPath) ++ ".tblk"])
          else fs0) (configDir ++ [stemOf (pathName ovpnPath) ++ ".tblk"]) FsEntry.dir)
          ovpnPath with
      | none =>
        simp only [resultFS, fsLookup_fsSet, if_neg hq1]
        exact h1
      | some srcEntry =>
        by_cases hf3 : failAt = some 3
        · simp only [if_pos hf3, resultFS, fsLookup_fsSet, if_neg hq2, if_neg hq1]
          exact h1
        · simp only [if_neg hf3]
          by_cases hf4 : failAt = some 4
          · simp only [if_pos hf4, resultFS, fsLookup_fsSet, if_neg hq3, if_neg hq2,
              if_neg hq1]
            exact h1
          · simp only [if_neg hf4]
            by_cases hf5 : failAt = some 5
            · simp only [if_pos hf5, resultFS]
              rw [fsLookup_fsChmod_ne _ _ _ _ hq3]
              simp only [fsLookup_fsSet, if_neg hq3, if_neg hq2, if_neg hq1]
              exact h1
            · simp only [if_neg hf5, resultFS, fsLookup_fsSet, if_neg hq4]
              rw [fsLookup_fsChmod_ne _ _ _ _ hq3]
              simp only [fsLookup_fsSet, if_neg hq3, if_neg hq2, if_neg hq1]
              exact h1

/-- Witness for C3 (amended) at a concrete state: with the prior bundle
present and a failure at the `.pass` write (failure point 3), the prior
bundle's file is gone. -/
theorem create_tblk_package_removes_prior_witness :
    fsLookup (resultFS (create_tblk_package priorBundleFS ["configs"]
      ["configs", "h.udp.ovpn"] "user" "pw" (some 3)))
      ["configs", "h.udp.tblk", "old.ovpn"] = none :=
  create_tblk_package_removes_prior priorBundleFS ["configs"] ["configs", "h.udp.ovpn"]
    "user" "pw" (some 3) ["configs", "h.udp.tblk", "old.ovpn"]
    (by decide) (by decide) (by decide) (by decide) (by decide) (by decide) (by decide)

/-- Strings with different final characters differ. -/
lemma ne_of_data_getLast (a b : String)
    (h : a.data.getLast? ≠ b.data.getLast?) : a ≠ b :=
  fun he => h (by rw [he])

/-- Appends whose suffixes end in different characters differ. -/
lemma append_ne_of_suffix_last (a suf1 b suf2 : String) (x y : Char)
    (h1 : suf1.data.getLast? = some x) (h2 : suf2.data.getLast? = some y)
    (hxy : x ≠ y) : a ++ suf1 ≠ b ++ suf2 := by
  apply ne_of_data_getLast
  rw [String.data_append, String.data_append, List.getLast?_append,
    List.getLast?_append, h1, h2]
  exact fun h => hxy (Option.some.inj h)

/-- `<stem>.pass` is never the `autoLogin` marker name. -/
lemma append_pass_ne_autoLogin (s : String) : s ++ ".pass" ≠ "autoLogin" := by
  apply ne_of_data_getLast
  rw [String.data_append, List.getLast?_append]
  intro h
  have h2 : (some 's' : Option Char) = some 'n' := h
  exact absurd (Option.some.inj h2) (by decide)

/-- Extending a common directory by different names gives different paths. -/
lemma append_singleton_ne (l : List String) (x y : String) (h : x ≠ y) :
    l ++ [x] ≠ l ++ [y] := by
  intro he
  have h2 := List.append_inj_right he rfl
  exact h (by injection h2)

/-- A path is no prefix of a sibling path with a different final name. -/
lemma isPrefixOf_append_singleton_false (l : List String) (x y : String) (h : x ≠ y) :
    (l ++ [x]).isPrefixOf (l ++ [y]) = false := by
  rw [Bool.eq_false_iff]
  intro hp
  rw [List.isPrefixOf_iff_prefix] at hp
  have he := hp.eq_of_length (by simp)
  have h2 := List.append_inj_right he rfl
  exact h (by injection h2)

/-- The file name of a path built by appending one component. -/
lemma pathName_append_singleton (l : List String) (x : String) :
    pathName (l ++ [x]) = x := by
  unfold pathName
  rw [List.getLastD_concat]

/-- The file-system state a successful `create_tblk_package` run leaves
behind (the same operation sequence as the builder, with the source entry
already resolved). -/
def createdFS (fs0 : FS) (configDir : FsPath) (n u p : String) (srcEntry : FsEntry) : FS :=
  let tblk := configDir ++ [stemOf n ++ ".tblk"]
  let fs1 := if fsExists fs0 tblk then fsRemoveTree fs0 tblk else fs0
  let fs2 := fsSet fs1 tblk FsEntry.dir
  let fs3 := fsSet fs2 (tblk ++ [n]) srcEntry
  let fs4 := fsSet fs3 (tblk ++ [stemOf n ++ ".pass"])
    (FsEntry.file (u ++ "\n" ++ p ++ "\n") 0o644)
  let fs5 := fsChmod fs4 (tblk ++ [stemOf n ++ ".pass"]) 0o600
  fsSet fs5 (tblk ++ ["autoLogin"]) (FsEntry.file "" 0o644)

/-- A failure-free `create_tblk_package` run on a staged profile
`<configDir>/<n>` succeeds and returns exactly the `createdFS` state and the
bundle path. -/
lemma create_tblk_package_none_eq (fs0 : FS) (configDir : FsPath) (n u p : String)
    (srcContent : String) (srcMode : Nat)
    (hsrc : fsLookup fs0 (configDir ++ [n]) = some (FsEntry.file srcContent srcMode))
    (hne : stemOf n ++ ".tblk" ≠ n) :
    create_tblk_package fs0 configDir (configDir ++ [n]) u p none =
      .ok (createdFS fs0 configDir n u p (FsEntry.file srcContent srcMode),
        configDir ++ [stemOf n ++ ".tblk"]) := by
  have hpn : pathName (configDir ++ [n]) = n := pathName_append_singleton _ _
  have hneq : configDir ++ [n] ≠ configDir ++ [stemOf n ++ ".tblk"] :=
    append_singleton_ne _ _ _ (fun he => hne he.symm)
  have hnpre : (configDir ++ [stemOf n ++ ".tblk"]).isPrefixOf (configDir ++ [n]) = false :=
    isPrefixOf_append_singleton_false _ _ _ hne
  have h1 : fsLookup (if fsExists fs0 (configDir ++ [stemOf n ++ ".tblk"])
      then fsRemoveTree fs0 (configDir ++ [stemOf n ++ ".tblk"])
      else fs0) (configDir ++ [n]) = some (FsEntry.file srcContent srcMode) := by
    by_cases hex : fsExists fs0 (configDir ++ [stemOf n ++ ".tblk"]) = true
    · rw [if_pos hex, fsLookup_fsRemoveTree, hnpre]
      · simpa using hsrc
    · rw [if_neg hex]
      exact hsrc
  have h2 : fsLookup (fsSet (if fsExists fs0 (configDir ++ [stemOf n ++ ".tblk"])
      then fsRemoveTree fs0 (configDir ++ [stemOf n ++ ".tblk"])
      else fs0) (configDir ++ [stemOf n ++ ".tblk"]) FsEntry.dir) (configDir ++ [n]) =
      some (FsEntry.file srcContent srcMode) := by
    rw [fsLookup_fsSet, if_neg hneq]
    exact h1
  simp only [create_tblk_package, createdFS, hpn]
  simp only [if_neg (by decide : ¬ (none : Option Nat) = some 0),
    if_neg (by decide : ¬ (none : Option Nat) = some 1),
    if_neg (by decide : ¬ (none : Option Nat) = some 2),
    if_neg (by decide : ¬ (none : Option Nat) = some 3),
    if_neg (by decide : ¬ (none : Option Nat) = some 4),
    if_neg (by decide : ¬ (none : Option Nat) = some 5)]
  rw [h2]

/-- The `.pass` file of a built bundle holds the two credential lines with
mode `0600`. -/
lemma createdFS_pass (fs0 : FS) (configDir : FsPath) (n u p : String)
    (srcEntry : FsEntry) :
    fsLookup (createdFS fs0 configDir n u p srcEntry)
      (configDir ++ [stemOf n ++ ".tblk"] ++ [stemOf n ++ ".pass"]) =
      some (FsEntry.file (u ++ "\n" ++ p ++ "\n") 0o600) := by
  have hpassauto : configDir ++ [stemOf n ++ ".tblk"] ++ [stemOf n ++ ".pass"] ≠
      configDir ++ [stemOf n ++ ".tblk"] ++ ["autoLogin"] :=
    append_singleton_ne _ _ _ (append_pass_ne_autoLogin (stemOf n))
  simp only [createdFS]
  rw [fsLookup_fsSet, if_neg hpassauto]
  apply fsLookup_fsChmod_file
  rw [fsLookup_fsSet, if_pos rfl]

/-- Claim C8: after a successful `setup_server` run for any host, username
and password, the bundle's `.pass` file holds exactly the two lines
`<username>\n<password>\n` and has mode exactly `0600`, and that state is the
one in force when the bundle is handed off to the GUI: `create_tblk_package`
(which writes the file and sets the mode) completes before `install_config`
is invoked, whose `install` step appears last in the effect list and receives
the returned file system unchanged. -/
theorem setup_server_pass_file_spec (fs0 : FS) (configDir : FsPath)
    (host u p content : String) :
    ∃ fsF : FS,
      setup_server fs0 configDir host u p content none =
        .ok (hostname_to_config_name host, fsF,
          [SetupStep.download (normalize_hostname host),
           SetupStep.install (configDir ++
             [stemOf (normalize_hostname host ++ ".udp.ovpn") ++ ".tblk"])]) ∧
      fsLookup fsF (configDir ++
          [stemOf (normalize_hostname host ++ ".udp.ovpn") ++ ".tblk"] ++
          [stemOf (normalize_hostname host ++ ".udp.ovpn") ++ ".pass"]) =
        some (FsEntry.file (u ++ "\n" ++ p ++ "\n") 0o600) := by
  have hsrc : fsLookup (fsSet fs0 (configDir ++ [normalize_hostname host ++ ".udp.ovpn"])
      (FsEntry.file content 0o644)) (configDir ++ [normalize_hostname host ++ ".udp.ovpn"]) =
      some (FsEntry.file content 0o644) := by
    rw [fsLookup_fsSet, if_pos rfl]
  have hne : stemOf (normalize_hostname host ++ ".udp.ovpn") ++ ".tblk" ≠
      normalize_hostname host ++ ".udp.ovpn" :=
    append_ne_of_suffix_last _ ".tblk" _ ".udp.ovpn" 'k' 'n' rfl rfl (by decide)
  have hok := create_tblk_package_none_eq
    (fsSet fs0 (configDir ++ [normalize_hostname host ++ ".udp.ovpn"])
      (FsEntry.file content 0o644))
    configDir (normalize_hostname host ++ ".udp.ovpn") u p content 0o644 hsrc hne
  refine ⟨createdFS (fsSet fs0 (configDir ++ [normalize_hostname host ++ ".udp.ovpn"])
      (FsEntry.file content 0o644)) configDir (normalize_hostname host ++ ".udp.ovpn")
      u p (FsEntry.file content 0o644), ?_, createdFS_pass _ _ _ _ _ _⟩
  simp only [setup_server, hok]

/-- Claim C5: once the config name `<hostname>.udp` already appears in the
GUI's configuration list (as after a first successful `connect`), a repeated
`do_connect` with the same arguments issues no `setup_server` call — hence no
profile download, no bundle write and no install, which only happen inside
`setup_server` — and no registration sleep; it proceeds directly to the GUI
connect on that config name.  Both invocation modes are covered: an explicit
`--server` argument and a selector-chosen server. -/
theorem do_connect_idempotent (env : CliEnv) :
    (∀ s, normalize_hostname s ++ ".udp" ∈ env.installed →
      ((do_connect (some s) env).2.filter isSetupEffect = [] ∧
       CliEffect.sleepRegister ∉ (do_connect (some s) env).2 ∧
       CliEffect.guiConnect (normalize_hostname s ++ ".udp") ∈ (do_connect (some s) env).2)) ∧
    (∀ srv, env.optimal = some srv → srv.hostname ++ ".udp" ∈ env.installed →
      ((do_connect none env).2.filter isSetupEffect = [] ∧
       CliEffect.sleepRegister ∉ (do_connect none env).2 ∧
       CliEffect.guiConnect (srv.hostname ++ ".udp") ∈ (do_connect none env).2)) := by
  constructor
  · intro s hmem
    simp only [do_connect, doConnectWithHost, if_pos hmem, doConnectFinish]
    cases env.connectOutcome with
    | error e => simp [isSetupEffect]
    | ok b => cases b <;> simp [isSetupEffect]
  · intro srv hopt hmem
    simp only [do_connect, hopt, doConnectWithHost, if_pos hmem, doConnectFinish]
    cases env.connectOutcome with
    | error e => simp [isSetupEffect]
    | ok b => cases b <;> simp [isSetupEffect]

/-- Environment for the C5 witness: the bundle from the first run is
installed and the GUI connect succeeds. -/
def idemEnv : CliEnv := ⟨none, ["us5090.nordvpn.com.udp"], .ok true⟩

/-- Witness for C5: repeating `connect --server us5090` with the bundle
already installed issues no setup call, no sleep, and goes straight to the
GUI connect. -/
theorem do_connect_idempotent_witness :
    (do_connect (some "us5090") idemEnv).2.filter isSetupEffect = [] ∧
    CliEffect.sleepRegister ∉ (do_connect (some "us5090") idemEnv).2 ∧
    CliEffect.guiConnect (normalize_hostname "us5090" ++ ".udp") ∈
      (do_connect (some "us5090") idemEnv).2 :=
  (do_connect_idempotent idemEnv).1 "us5090" (by decide)

/-- Closed form of the reconciler's output in the `CONNECTED` case: every
field is a function of its own probe alone. -/
lemma get_connection_status_connected_eq (tb : TunnelblickStatus) (ip : Option String)
    (geo : Option GeoInfo) (cat : Except String (Option Server))
    (htb : tb.state = ConnectionState.CONNECTED) :
    get_connection_status tb ip geo cat =
      (let hostname := tb.config_name.bind extract_hostname_from_config
       let geoCity : Option String := match ip, geo with
         | some _, some g => g.city
         | _, _ => none
       let geoCountry : Option String := match ip, geo with
         | some _, some g => g.country
         | _, _ => none
       let catServer : Option Server := match hostname, cat with
         | some _, Except.ok (some s) => some s
         | _, _ => none
       let cityF := match catServer with
         | some s => if optFalsy geoCity && s.city.isSome then s.city.map City.name else geoCity
         | none => geoCity
       let countryF := match catServer with
         | some s => if optFalsy geoCountry && s.country.isSome
             then s.country.map Country.name else geoCountry
         | none => geoCountry
       let loadF := catServer.map Server.load
       let probesF := (match ip with
         | none => [Probe.ipProbe]
         | some _ => [Probe.ipProbe, Probe.geoProbe]) ++
         (match hostname with
          | none => []
          | some _ => [Probe.catalogProbe])
       (⟨true, tb.config_name, hostname, ip, countryF, cityF, loadF⟩, probesF)) := by
  rcases hcn : tb.config_name with _ | cn
  · rcases ip with _ | ipv <;> rcases geo with _ | g <;>
      rcases cat with e | ⟨_ | s⟩ <;>
      simp [get_connection_status, htb, hcn]
  · rcases hh : extract_hostname_from_config cn with _ | hname <;>
      rcases ip with _ | ipv <;> rcases geo with _ | g <;>
      rcases cat with e | ⟨_ | s⟩ <;>
      simp [get_connection_status, htb, hcn, hh]

/-- Claim C7: in the `CONNECTED` case each field of the reconciled status is
computed independently and tolerantly — the public-IP field equals the IP
probe's result whatever the other probes did, the load field depends only on
the extracted hostname and the catalog lookup (`none` when either fails),
and the city and country fields take the geolocation values, backfilled from
the catalog server's location exactly when geolocation left them empty (absent
or `""`) and the catalog server carries one; no probe failure yields an
overall error. -/
theorem get_connection_status_connected_fields (tb : TunnelblickStatus)
    (ip : Option String) (geo : Option GeoInfo) (cat : Except String (Option Server))
    (htb : tb.state = ConnectionState.CONNECTED) :
    (get_connection_status tb ip geo cat).1.connected = true ∧
    (get_connection_status tb ip geo cat).1.config_name = tb.config_name ∧
    (get_connection_status tb ip geo cat).1.server_hostname =
      tb.config_name.bind extract_hostname_from_config ∧
    (get_connection_status tb ip geo cat).1.public_ip = ip ∧
    (∀ geo2 cat2, (get_connection_status tb ip geo2 cat2).1.public_ip =
      (get_connection_status tb ip geo cat).1.public_ip) ∧
    (∀ ip2 geo2, (get_connection_status tb ip2 geo2 cat).1.load =
      (get_connection_status tb ip geo cat).1.load) ∧
    (get_connection_status tb ip geo cat).1.load =
      (match tb.config_name.bind extract_hostname_from_config, cat with
       | some _, Except.ok (some s) => some s.load
       | _, _ => none) ∧
    (get_connection_status tb ip geo cat).1.city =
      (let geoCity : Option String := match ip, geo with
         | some _, some g => g.city
         | _, _ => none
       match tb.config_name.bind extract_hostname_from_config, cat with
       | some _, Except.ok (some s) =>
         if optFalsy geoCity && s.city.isSome then s.city.map City.name else geoCity
       | _, _ => geoCity) ∧
    (get_connection_status tb ip geo cat).1.country =
      (let geoCountry : Option String := match ip, geo with
         | some _, some g => g.country
         | _, _ => none
       match tb.config_name.bind extract_hostname_from_config, cat with
       | some _, Except.ok (some s) =>
         if optFalsy geoCountry && s.country.isSome
           then s.country.map Country.name else geoCountry
       | _, _ => geoCountry) := by
  refine ⟨?_, ?_, ?_, ?_, ?_, ?_, ?_, ?_, ?_⟩
  · rw [get_connection_status_connected_eq tb ip geo cat htb]
  · rw [get_connection_status_connected_eq tb ip geo cat htb]
  · rw [get_connection_status_connected_eq tb ip geo cat htb]
  · rw [get_connection_status_connected_eq tb ip geo cat htb]
  · intro geo2 cat2
    rw [get_connection_status_connected_eq tb ip geo2 cat2 htb,
      get_connection_status_connected_eq tb ip geo cat htb]
  · intro ip2 geo2
    rw [get_connection_status_connected_eq tb ip2 geo2 cat htb,
      get_connection_status_connected_eq tb ip geo cat htb]
  · rw [get_connection_status_connected_eq tb ip geo cat htb]
    rcases tb.config_name.bind extract_hostname_from_config with _ | h <;>
      rcases cat with e | ⟨_ | s⟩ <;> rfl
  · rw [get_connection_status_connected_eq tb ip geo cat htb]
    rcases tb.config_name.bind extract_hostname_from_config with _ | h <;>
      rcases cat with e | ⟨_ | s⟩ <;> rfl
  · rw [get_connection_status_connected_eq tb ip geo cat htb]
    rcases tb.config_name.bind extract_hostname_from_config with _ | h <;>
      rcases cat with e | ⟨_ | s⟩ <;> rfl

/-- GUI snapshot for the C7 witness (scenario S6). -/
def tbS6 : TunnelblickStatus :=
  ⟨ConnectionState.CONNECTED, some "de123.nordvpn.com.udp", none⟩

/-- Catalog record for the C7 witness (scenario S6). -/
def serverS6 : Server :=
  ⟨9, "Germany #123", "de123.nordvpn.com", "de123.nordvpn.com", 14, "online",
    [⟨1, ⟨81, "Germany", "DE", some ⟨7, "Frankfurt", 50.1, 8.7, none, none⟩⟩, 50.1, 8.7⟩],
    [], []⟩

/-- Witness for C7 at scenario S6: the public-IP probe failed, the catalog
lookup succeeded; the load and backfilled city come through while the
public-IP field is `none`. -/
theorem get_connection_status_connected_fields_witness :
    (get_connection_status tbS6 none none (.ok (some serverS6))).1.city =
      some "Frankfurt" ∧
    (get_connection_status tbS6 none none (.ok (some serverS6))).1.load = some 14 ∧
    (get_connection_status tbS6 none none (.ok (some serverS6))).1.public_ip = none := by
  obtain ⟨hconn, hcfg, hhost, hip, hip2, hld2, hld, hcity, hcountry⟩ :=
    get_connection_status_connected_fields tbS6 none none (.ok (some serverS6)) rfl
  exact ⟨hcity, hld, hip⟩

end Nord
